import Mathlib

/-!
Accessibility panel scripts (`static/landing_script.js`, `static/learn_more.js`).

A shallow embedding of the click / mousemove / submit handlers of the two page
scripts.  The browser objects the handlers touch (class lists, inline styles,
`Node.contains`, `alert`, `form.reset`) are modelled as a `Page` value that each
handler transforms; the two script globals `rulerActive` and `currentFontSize`
are fields of the same value.
-/

namespace Dyslexia

/-! ## Browser side: elements, class lists, the page -/

/-- Handles of the elements of a page.  `byId s` is the element returned by
`document.getElementById(s)` (also reachable as the global named `s`),
`span e` is the element returned by `e.querySelector('span')`, and `node n`
stands for any other element of the document. -/
inductive Elem where
  | documentElement : Elem
  | body : Elem
  | byId (id : String) : Elem
  | span (owner : Elem) : Elem
  | node (n : Nat) : Elem
  deriving DecidableEq, Repr

/-- A `DOMTokenList` (the value of `element.classList`): the class tokens of
an element in order. -/
structure DOMTokenList where
  tokens : List String
  deriving DecidableEq, Repr

namespace DOMTokenList

/-- Method `classList.contains(token)`. -/
def contains (l : DOMTokenList) (token : String) : Bool :=
  l.tokens.elem token

/-- Method `classList.add(token)`: appends the token unless it is already there. -/
def add (l : DOMTokenList) (token : String) : DOMTokenList :=
  if l.contains token then l else ⟨l.tokens ++ [token]⟩

/-- Method `classList.remove(token)`. -/
def remove (l : DOMTokenList) (token : String) : DOMTokenList :=
  ⟨l.tokens.filter (fun t => t != token)⟩

/-- Method `classList.toggle(token)`: removes the token when present and returns
`false`, adds it when absent and returns `true`. -/
def toggle (l : DOMTokenList) (token : String) : DOMTokenList × Bool :=
  if l.contains token then (l.remove token, false) else (l.add token, true)

/-- Method `classList.toggle(token, force)`: adds the token when `force` is true,
removes it when `force` is false, and returns `force`. -/
def toggleForce (l : DOMTokenList) (token : String) (force : Bool) : DOMTokenList × Bool :=
  if force then (l.add token, true) else (l.remove token, false)

end DOMTokenList

/-- Calls into the host that leave no trace in the element state. -/
inductive Effect where
  | preventDefault : Effect
  | alert (message : String) : Effect
  | reset (form : Elem) : Effect
  deriving DecidableEq, Repr

/-- The state a handler can read or write.

* `classList`, `value`, `offsetHeight`, `ancestors`, `elements` are the
  document: class tokens, form-control values, laid-out heights, the chain
  of proper ancestors of each element (nearest first) and the elements in
  document order;
* `style e prop` is the inline style text of property `prop` on `e`,
  `styleTop e` the number of pixels of an inline `top` of the form `<n>px`;
* `rulerActive` and `currentFontSize` are the script globals;
* `log` records `preventDefault`, `alert` and `reset` calls, oldest first. -/
structure Page where
  classList : Elem → DOMTokenList
  value : Elem → String
  offsetHeight : Elem → ℚ
  ancestors : Elem → List Elem
  elements : List Elem
  style : Elem → String → Option String
  styleTop : Elem → Option ℚ
  rulerActive : Bool
  currentFontSize : Int
  log : List Effect

namespace Page

/-- Replace the class list of one element. -/
def setClassList (p : Page) (e : Elem) (l : DOMTokenList) : Page :=
  { p with classList := fun x => if x = e then l else p.classList x }

/-- Statement `e.classList.add(token)`. -/
def classAdd (p : Page) (e : Elem) (token : String) : Page :=
  p.setClassList e ((p.classList e).add token)

/-- Statement `e.classList.remove(token)`. -/
def classRemove (p : Page) (e : Elem) (token : String) : Page :=
  p.setClassList e ((p.classList e).remove token)

/-- Expression `e.classList.toggle(token)`: the new page and the returned
boolean. -/
def classToggle (p : Page) (e : Elem) (token : String) : Page × Bool :=
  (p.setClassList e ((p.classList e).toggle token).1, ((p.classList e).toggle token).2)

/-- Statement `e.classList.toggle(token, force)`. -/
def classToggleForce (p : Page) (e : Elem) (token : String) (force : Bool) : Page :=
  p.setClassList e ((p.classList e).toggleForce token force).1

/-- Whether element `e` carries class `token`. -/
def hasClass (p : Page) (e : Elem) (token : String) : Bool :=
  (p.classList e).contains token

/-- Expression `a.contains(other)`: `other` is `a` or a descendant of `a`. -/
def contains (p : Page) (a other : Elem) : Bool :=
  decide (other = a) || (p.ancestors other).elem a

/-- Expression `e.parentElement`. -/
def parentElement (p : Page) (e : Elem) : Option Elem :=
  (p.ancestors e).head?

/-- Expression `document.querySelectorAll('.' + cls)`: the elements carrying
class `cls`, in document order. -/
def querySelectorAllClass (p : Page) (cls : String) : List Elem :=
  p.elements.filter (fun e => p.hasClass e cls)

/-- Statement `e.style.setProperty(prop, text)` and `e.style.<prop> = text`. -/
def setStyle (p : Page) (e : Elem) (prop text : String) : Page :=
  { p with style := fun x k => if x = e ∧ k = prop then some text else p.style x k }

/-- Append one host call to the log. -/
def emit (p : Page) (eff : Effect) : Page :=
  { p with log := p.log ++ [eff] }

end Page

/-! ## The scripts -/

/-- Binding `const root = document.documentElement` (`html` in learn_more.js). -/
def root : Elem := Elem.documentElement

/-- Binding `const panel = document.getElementById('accessibilityPanel')`. -/
def panel : Elem := Elem.byId "accessibilityPanel"

/-- Binding `const panelToggle = document.getElementById('togglePanel')`. -/
def panelToggle : Elem := Elem.byId "togglePanel"

/-- The global `accessibilityPanel`: the element with that id. -/
def accessibilityPanel : Elem := Elem.byId "accessibilityPanel"

/-- The global `togglePanel`: the element with that id. -/
def togglePanel : Elem := Elem.byId "togglePanel"

/-- Binding `const ruler = document.getElementById('readingRuler')`. -/
def ruler : Elem := Elem.byId "readingRuler"

/-- Binding `const rulerToggle = document.getElementById('toggleRuler')`. -/
def rulerToggle : Elem := Elem.byId "toggleRuler"

/-- Binding `const rulerThumb = rulerToggle.querySelector('span')`. -/
def rulerThumb : Elem := Elem.span rulerToggle

/-- Top-level `let rulerActive = false` and `let currentFontSize = 16`,
run once when the script is loaded into a document. -/
def load (document : Page) : Page :=
  { document with rulerActive := false, currentFontSize := 16 }

/-- Handler `panelToggle.addEventListener('click', ...)` (lines 9-11). -/
def panelToggleClick (p : Page) : Page :=
  (p.classToggle panel "hidden").1

/-- Handler `closePanel.addEventListener('click', ...)` (lines 13-15). -/
def closePanelClick (p : Page) : Page :=
  p.classAdd accessibilityPanel "hidden"

/-- Handler `document.addEventListener('click', ...)` (lines 17-24);
`target` is `event.target`. -/
def documentClick (p : Page) (target : Elem) : Page :=
  let isClickInsidePanel := p.contains accessibilityPanel target
  let isClickToggleButton := p.contains togglePanel target
  if !isClickInsidePanel && !isClickToggleButton then
    p.classAdd accessibilityPanel "hidden"
  else
    p

/-- The click handler installed by `setupToggle(buttonId, classTarget,
className)` (lines 26-37). -/
def setupToggle (buttonId : String) (classTarget : Elem) (className : String)
    (p : Page) : Page :=
  let button := Elem.byId buttonId
  let thumb := Elem.span button
  let r := p.classToggle classTarget className
  let isActive := r.2
  let p1 := r.1.classToggleForce button "bg-blue-600" isActive
  let p2 := p1.classToggleForce button "bg-gray-300" (!isActive)
  let p3 := p2.classToggleForce thumb "translate-x-6" isActive
  p3.classToggleForce thumb "translate-x-1" (!isActive)

/-- The three preferences wired through `setupToggle` (lines 39-42). -/
inductive Preference where
  | dyslexicFont : Preference
  | monochrome : Preference
  | bigCursor : Preference
  deriving DecidableEq, Repr

/-- First argument of the `setupToggle` call of a preference. -/
def Preference.buttonId : Preference → String
  | .dyslexicFont => "toggleDyslexic"
  | .monochrome => "toggleMonochrome"
  | .bigCursor => "toggleCursor"

/-- Third argument of the `setupToggle` call of a preference. -/
def Preference.className : Preference → String
  | .dyslexicFont => "dyslexic-font"
  | .monochrome => "monochrome"
  | .bigCursor => "big-cursor"

/-- Click on the switch of a preference: `setupToggle(id, root, cls)`. -/
def preferenceClick (pref : Preference) (p : Page) : Page :=
  setupToggle pref.buttonId root pref.className p

/-- Handler `rulerToggle.addEventListener('click', ...)` (lines 51-59). -/
def rulerToggleClick (p : Page) : Page :=
  let p0 := { p with rulerActive := !p.rulerActive }
  let p1 := p0.classToggleForce ruler "hidden" (!p0.rulerActive)
  let p2 := p1.classToggleForce rulerToggle "bg-blue-600" p1.rulerActive
  let p3 := p2.classToggleForce rulerToggle "bg-gray-300" (!p2.rulerActive)
  let p4 := p3.classToggleForce rulerThumb "translate-x-6" p3.rulerActive
  p4.classToggleForce rulerThumb "translate-x-1" (!p4.rulerActive)

/-- Handler `document.addEventListener('mousemove', ...)` (lines 61-66);
`clientY` is `e.clientY`. -/
def documentMouseMove (p : Page) (clientY : ℚ) : Page :=
  if p.rulerActive then
    let height := p.offsetHeight ruler
    { p with styleTop := fun x => if x = ruler then some (clientY - height / 2) else p.styleTop x }
  else
    p

/-- Function `updateFontSize` (lines 86-90). -/
def updateFontSize (p : Page) : Page :=
  let p1 := p.setStyle Elem.documentElement "--font-size-base" (toString p.currentFontSize ++ "px")
  let p2 := p1.setStyle Elem.body "font-size" (toString p1.currentFontSize ++ "px")
  p2.setStyle root "font-size" (toString p2.currentFontSize ++ "px")

/-- Handler `decreaseBtn.addEventListener('click', ...)` (lines 69-74). -/
def decreaseFontSize (p : Page) : Page :=
  if p.currentFontSize > 12 then
    updateFontSize { p with currentFontSize := p.currentFontSize - 1 }
  else
    p

/-- Handler `resetBtn.addEventListener('click', ...)` (lines 75-78). -/
def resetFontSize (p : Page) : Page :=
  updateFontSize { p with currentFontSize := 16 }

/-- Handler `increaseBtn.addEventListener('click', ...)` (lines 79-84). -/
def increaseFontSize (p : Page) : Page :=
  if p.currentFontSize < 24 then
    updateFontSize { p with currentFontSize := p.currentFontSize + 1 }
  else
    p

/-- An activation of one of the three font-size buttons. -/
inductive FontAction where
  | decrease : FontAction
  | reset : FontAction
  | increase : FontAction
  deriving DecidableEq, Repr

/-- The handler run by one activation. -/
def FontAction.run : FontAction → Page → Page
  | .decrease => decreaseFontSize
  | .reset => resetFontSize
  | .increase => increaseFontSize

/-- Run a sequence of activations, first one first. -/
def runFontActions (p : Page) (acts : List FontAction) : Page :=
  acts.foldl (fun q a => a.run q) p

/-- Truthiness of a JavaScript string: every string but the empty one. -/
def truthy (s : String) : Bool := s != ""

/-- Handler `contactForm` `submit` (landing_script.js lines 116-129). -/
def contactFormSubmit (p : Page) : Page :=
  let p0 := p.emit Effect.preventDefault
  let name := p0.value (Elem.byId "name")
  let email := p0.value (Elem.byId "email")
  let subject := p0.value (Elem.byId "subject")
  let message := p0.value (Elem.byId "message")
  if truthy name && truthy email && truthy subject && truthy message then
    let p1 := p0.emit (Effect.alert
      ("Thank you for your message, " ++ name ++ "! Our research team will get back to you soon."))
    p1.emit (Effect.reset (Elem.byId "contactForm"))
  else
    p0.emit (Effect.alert "Please fill in all fields.")

/-- Click handler of one `.faq-toggle` (learn_more.js lines 106-121);
`toggle` is `this`.  Reading `classList` of a missing parent throws, which
is `none` here. -/
def faqToggleClick (p : Page) (toggle : Elem) : Option Page :=
  match p.parentElement toggle with
  | none => none
  | some faqItem =>
    let isActive := p.hasClass faqItem "active"
    let p1 := (p.querySelectorAllClass "faq-item").foldl
      (fun q item => q.classRemove item "active") p
    if !isActive then some (p1.classAdd faqItem "active") else some p1

/-! ## Vocabulary of the properties -/

/-- The size range `[12, 24]` of the page. -/
def FontSizeInRange (p : Page) : Prop :=
  12 ≤ p.currentFontSize ∧ p.currentFontSize ≤ 24

/-- The four indicator classes of the switch whose button has id `buttonId`:
`bg-blue-600` and `bg-gray-300` on the button, `translate-x-6` and
`translate-x-1` on its thumb, in this order. -/
def indicator (p : Page) (buttonId : String) : Bool × Bool × Bool × Bool :=
  (p.hasClass (Elem.byId buttonId) "bg-blue-600",
    p.hasClass (Elem.byId buttonId) "bg-gray-300",
    p.hasClass (Elem.span (Elem.byId buttonId)) "translate-x-6",
    p.hasClass (Elem.span (Elem.byId buttonId)) "translate-x-1")

/-- What the indicator of a switch looks like when it shows the value `b`:
`bg-blue-600` iff `b`, `bg-gray-300` iff not `b`, `translate-x-6` iff `b`,
`translate-x-1` iff not `b`. -/
def shown (b : Bool) : Bool × Bool × Bool × Bool := (b, !b, b, !b)

/-- Pointer moves with the given `clientY` values, first one first. -/
def runMouseMoves (p : Page) (ys : List ℚ) : Page :=
  ys.foldl documentMouseMove p

/-- The host calls a handler run added to the log of `p`, given its result `q`. -/
def newEffects (p q : Page) : List Effect :=
  q.log.drop p.log.length

/-- All four fields of the contact form hold a non-empty string. -/
def allFilled (p : Page) : Prop :=
  p.value (Elem.byId "name") ≠ "" ∧ p.value (Elem.byId "email") ≠ "" ∧
    p.value (Elem.byId "subject") ≠ "" ∧ p.value (Elem.byId "message") ≠ ""

instance (p : Page) : Decidable (allFilled p) := by
  unfold allFilled; infer_instance

/-! ## A sample document -/

/-- A document given by a listing of its elements in document order, each
with its class tokens and its proper ancestors (nearest first), before any
script ran: no inline styles, empty form controls, nothing logged. -/
def documentOf (rows : List (Elem × List String × List Elem)) : Page :=
  { classList := fun e =>
      match rows.find? (fun r => decide (r.1 = e)) with
      | some r => ⟨r.2.1⟩
      | none => ⟨[]⟩
    value := fun _ => ""
    offsetHeight := fun _ => 0
    ancestors := fun e =>
      match rows.find? (fun r => decide (r.1 = e)) with
      | some r => r.2.2
      | none => []
    elements := rows.map (fun r => r.1)
    style := fun _ _ => none
    styleTop := fun _ => none
    rulerActive := false
    currentFontSize := 0
    log := [] }

/-- A page with the settings panel (open), the dyslexic-font switch drawn
without indicator classes, the ruler overlay with its switch, a paragraph
`node 3` outside the panel, an icon `node 2` inside the panel toggle, a
heading `node 1` inside the panel, and three FAQ items `node 10`, `node 11`
(open), `node 12` with their toggles `node 20`, `node 21`, `node 22`; the
script has been loaded. -/
def samplePage : Page :=
  load (documentOf
    [ (Elem.documentElement, [], []),
      (Elem.body, [], [Elem.documentElement]),
      (togglePanel, ["fixed"], [Elem.body, Elem.documentElement]),
      (Elem.node 2, ["icon"], [togglePanel, Elem.body, Elem.documentElement]),
      (accessibilityPanel, ["fixed", "shadow"], [Elem.body, Elem.documentElement]),
      (Elem.node 1, ["title"], [accessibilityPanel, Elem.body, Elem.documentElement]),
      (Elem.byId "closePanel", [], [accessibilityPanel, Elem.body, Elem.documentElement]),
      (Elem.byId "toggleDyslexic", ["rounded-full"],
        [accessibilityPanel, Elem.body, Elem.documentElement]),
      (Elem.span (Elem.byId "toggleDyslexic"), ["inline-block"],
        [Elem.byId "toggleDyslexic", accessibilityPanel, Elem.body, Elem.documentElement]),
      (rulerToggle, ["bg-gray-300"], [accessibilityPanel, Elem.body, Elem.documentElement]),
      (rulerThumb, ["translate-x-1"],
        [rulerToggle, accessibilityPanel, Elem.body, Elem.documentElement]),
      (ruler, ["hidden"], [Elem.body, Elem.documentElement]),
      (Elem.node 3, ["text"], [Elem.body, Elem.documentElement]),
      (Elem.node 10, ["faq-item"], [Elem.body, Elem.documentElement]),
      (Elem.node 20, ["faq-toggle"], [Elem.node 10, Elem.body, Elem.documentElement]),
      (Elem.node 11, ["faq-item", "active"], [Elem.body, Elem.documentElement]),
      (Elem.node 21, ["faq-toggle"], [Elem.node 11, Elem.body, Elem.documentElement]),
      (Elem.node 12, ["faq-item"], [Elem.body, Elem.documentElement]),
      (Elem.node 22, ["faq-toggle"], [Elem.node 12, Elem.body, Elem.documentElement]) ])

/-- The sample page with the ruler switched on and an overlay 5 px high. -/
def rulerPage : Page :=
  { rulerToggleClick samplePage with offsetHeight := fun _ => 5 }

/-- The sample page with the contact form filled as in the scenario: name
`Ada`, empty email, subject `Hi`, message `Test`. -/
def adaPage : Page :=
  { samplePage with
    value := fun e =>
      if e = Elem.byId "name" then "Ada"
      else if e = Elem.byId "email" then ""
      else if e = Elem.byId "subject" then "Hi"
      else if e = Elem.byId "message" then "Test"
      else "" }

/-! ## Theorems -/

/-! ## Font size -/

@[simp]
theorem updateFontSize_currentFontSize (p : Page) :
    (updateFontSize p).currentFontSize = p.currentFontSize := rfl

theorem decreaseFontSize_currentFontSize (p : Page) :
    (decreaseFontSize p).currentFontSize =
      if p.currentFontSize > 12 then p.currentFontSize - 1 else p.currentFontSize := by
  unfold decreaseFontSize
  split <;> simp

theorem increaseFontSize_currentFontSize (p : Page) :
    (increaseFontSize p).currentFontSize =
      if p.currentFontSize < 24 then p.currentFontSize + 1 else p.currentFontSize := by
  unfold increaseFontSize
  split <;> simp

@[simp]
theorem resetFontSize_currentFontSize (p : Page) :
    (resetFontSize p).currentFontSize = 16 := rfl

theorem FontAction.run_inRange (a : FontAction) (p : Page) (h : FontSizeInRange p) :
    FontSizeInRange (a.run p) := by
  unfold FontSizeInRange at *
  cases a
  · simp only [FontAction.run, decreaseFontSize_currentFontSize]
    split <;> omega
  · simp [FontAction.run]
  · simp only [FontAction.run, increaseFontSize_currentFontSize]
    split <;> omega

theorem runFontActions_inRange (acts : List FontAction) (p : Page) (h : FontSizeInRange p) :
    FontSizeInRange (runFontActions p acts) := by
  induction acts generalizing p with
  | nil => exact h
  | cons a rest ih => exact ih (a.run p) (a.run_inRange p h)

theorem load_inRange (document : Page) : FontSizeInRange (load document) := by
  simp [FontSizeInRange, load]

/-- C1: from the page-load state (`currentFontSize = 16`), after every step
of every finite sequence of decrease / reset / increase activations the
font size lies in `[12, 24]`.  The state after step `k` of `acts` is the run
of the first `k` activations. -/
theorem fontSize_always_in_range (document : Page) (acts : List FontAction) (k : Nat) :
    12 ≤ (runFontActions (load document) (acts.take k)).currentFontSize ∧
      (runFontActions (load document) (acts.take k)).currentFontSize ≤ 24 :=
  runFontActions_inRange (acts.take k) (load document) (load_inRange document)

theorem runFontActions_replicate_succ (a : FontAction) (n : Nat) (p : Page) :
    runFontActions p (List.replicate (n + 1) a) = a.run (runFontActions p (List.replicate n a)) := by
  induction n generalizing p with
  | zero => rfl
  | succ m ih =>
    have h := ih (a.run p)
    simpa [runFontActions, List.replicate_succ] using h

theorem increase_replicate (p : Page) (n : Nat) (h : FontSizeInRange p) :
    (runFontActions p (List.replicate n FontAction.increase)).currentFontSize =
      min (p.currentFontSize + n) 24 := by
  unfold FontSizeInRange at h
  induction n with
  | zero => simp [runFontActions]; omega
  | succ m ih =>
    rw [runFontActions_replicate_succ]
    simp only [FontAction.run, increaseFontSize_currentFontSize, ih]
    push_cast
    split <;> omega

theorem decrease_replicate (p : Page) (n : Nat) (h : FontSizeInRange p) :
    (runFontActions p (List.replicate n FontAction.decrease)).currentFontSize =
      max (p.currentFontSize - n) 12 := by
  unfold FontSizeInRange at h
  induction n with
  | zero => simp [runFontActions]; omega
  | succ m ih =>
    rw [runFontActions_replicate_succ]
    simp only [FontAction.run, decreaseFontSize_currentFontSize, ih]
    push_cast
    split <;> omega

/-- C2: from any size `s` in `[12, 24]`, `n` increases in a row leave
`min (s + n) 24` and `n` decreases in a row leave `max (s - n) 12`; from the
page-load size 16, ten increases give 24 and so do eleven. -/
theorem repeated_steps_clamp (p : Page) (n : Nat)
    (h : 12 ≤ p.currentFontSize ∧ p.currentFontSize ≤ 24) :
    (runFontActions p (List.replicate n FontAction.increase)).currentFontSize =
        min (p.currentFontSize + n) 24 ∧
      (runFontActions p (List.replicate n FontAction.decrease)).currentFontSize =
        max (p.currentFontSize - n) 12 ∧
      (runFontActions (load p) (List.replicate 10 FontAction.increase)).currentFontSize = 24 ∧
      (runFontActions (load p) (List.replicate 11 FontAction.increase)).currentFontSize = 24 := by
  refine ⟨increase_replicate p n h, decrease_replicate p n h, ?_, ?_⟩
  · rw [increase_replicate (load p) 10 (load_inRange p)]; simp [load]
  · rw [increase_replicate (load p) 11 (load_inRange p)]; simp [load]

/-- Witness of C2 at the sample page set to size 20 and `n = 7`: seven
increases stop at 24 and seven decreases reach 13. -/
theorem repeated_steps_clamp_witness :
    (12 ≤ ({ samplePage with currentFontSize := 20 } : Page).currentFontSize ∧
        ({ samplePage with currentFontSize := 20 } : Page).currentFontSize ≤ 24) ∧
      (runFontActions { samplePage with currentFontSize := 20 }
        (List.replicate 7 FontAction.increase)).currentFontSize = 24 ∧
      (runFontActions { samplePage with currentFontSize := 20 }
        (List.replicate 7 FontAction.decrease)).currentFontSize = 13 := by
  have h := repeated_steps_clamp { samplePage with currentFontSize := 20 } 7 (by decide)
  exact ⟨by decide, by simpa [samplePage] using h.1, by simpa [samplePage] using h.2.1⟩

/-- C3: whatever the page was, `resetFontSize` leaves `currentFontSize = 16`
and the three applied sizes (custom property `--font-size-base` on the root,
`font-size` of the body, `font-size` of the root) equal to the text `16px`. -/
theorem resetFontSize_yields_16 (p : Page) :
    (resetFontSize p).currentFontSize = 16 ∧
      (resetFontSize p).style Elem.documentElement "--font-size-base" = some "16px" ∧
      (resetFontSize p).style Elem.body "font-size" = some "16px" ∧
      (resetFontSize p).style root "font-size" = some "16px" := by
  refine ⟨rfl, ?_, ?_, ?_⟩
  · simp [resetFontSize, updateFontSize, Page.setStyle, root]
    decide
  · simp [resetFontSize, updateFontSize, Page.setStyle, root]
    decide
  · simp [resetFontSize, updateFontSize, Page.setStyle, root]
    decide

/-! ## Class lists -/

namespace DOMTokenList

theorem contains_add (l : DOMTokenList) (t u : String) :
    (l.add t).contains u = (decide (u = t) || l.contains u) := by
  unfold add
  split <;> rename_i h <;> by_cases hu : u = t <;> simp_all [contains]

theorem contains_remove (l : DOMTokenList) (t u : String) :
    (l.remove t).contains u = (!decide (u = t) && l.contains u) := by
  by_cases hu : u = t
  · subst hu; simp [remove, contains]
  · simp [remove, contains, hu]

theorem contains_toggleForce (l : DOMTokenList) (t u : String) (force : Bool) :
    (l.toggleForce t force).1.contains u = if u = t then force else l.contains u := by
  unfold toggleForce
  cases force <;> by_cases hu : u = t <;> simp [contains_add, contains_remove, hu]

theorem toggle_snd (l : DOMTokenList) (t : String) :
    (l.toggle t).2 = !l.contains t := by
  unfold toggle
  by_cases h : l.contains t = true <;> simp [h]

theorem contains_toggle (l : DOMTokenList) (t u : String) :
    (l.toggle t).1.contains u = if u = t then !l.contains t else l.contains u := by
  unfold toggle
  by_cases h : l.contains t = true <;> by_cases hu : u = t <;>
    simp [h, contains_add, contains_remove, hu]

end DOMTokenList

namespace Page

@[simp]
theorem hasClass_setClassList (p : Page) (e x : Elem) (l : DOMTokenList) (t : String) :
    (p.setClassList e l).hasClass x t = if x = e then l.contains t else p.hasClass x t := by
  unfold hasClass setClassList
  by_cases h : x = e <;> simp [h]

theorem hasClass_classAdd (p : Page) (e x : Elem) (t u : String) :
    (p.classAdd e t).hasClass x u =
      if x = e ∧ u = t then true else p.hasClass x u := by
  unfold classAdd
  rw [hasClass_setClassList]
  by_cases h : x = e
  · subst h
    by_cases hu : u = t <;> simp [hu, DOMTokenList.contains_add, hasClass]
  · simp [h]

theorem hasClass_classRemove (p : Page) (e x : Elem) (t u : String) :
    (p.classRemove e t).hasClass x u =
      if x = e ∧ u = t then false else p.hasClass x u := by
  unfold classRemove
  rw [hasClass_setClassList]
  by_cases h : x = e
  · subst h
    by_cases hu : u = t <;> simp [hu, DOMTokenList.contains_remove, hasClass]
  · simp [h]

theorem hasClass_classToggleForce (p : Page) (e x : Elem) (t u : String) (force : Bool) :
    (p.classToggleForce e t force).hasClass x u =
      if x = e ∧ u = t then force else p.hasClass x u := by
  unfold classToggleForce
  rw [hasClass_setClassList]
  by_cases h : x = e
  · subst h
    by_cases hu : u = t <;> simp [hu, DOMTokenList.contains_toggleForce, hasClass]
  · simp [h]

theorem classToggle_snd (p : Page) (e : Elem) (t : String) :
    (p.classToggle e t).2 = !p.hasClass e t := by
  simp [classToggle, DOMTokenList.toggle_snd, hasClass]

theorem hasClass_classToggle (p : Page) (e x : Elem) (t u : String) :
    (p.classToggle e t).1.hasClass x u =
      if x = e ∧ u = t then !p.hasClass e t else p.hasClass x u := by
  unfold classToggle
  rw [hasClass_setClassList]
  by_cases h : x = e
  · subst h
    by_cases hu : u = t <;> simp [hu, DOMTokenList.contains_toggle, hasClass]
  · simp [h]

end Page

/-! ## The settings panel -/

/-- C4: the document-level click handler adds `hidden` to the settings panel
when the click target is contained in neither the panel nor the toggle
button, and changes nothing (so the panel keeps its `hidden` membership) when
the target is inside the panel or is, or is inside, the toggle button. -/
theorem documentClick_outside_hides (p : Page) (target : Elem) :
    (p.contains accessibilityPanel target = false →
        p.contains togglePanel target = false →
        (documentClick p target).hasClass panel "hidden" = true) ∧
      (p.contains accessibilityPanel target = true ∨ p.contains togglePanel target = true →
        documentClick p target = p ∧
          (documentClick p target).hasClass panel "hidden" = p.hasClass panel "hidden") := by
  constructor
  · intro h1 h2
    unfold documentClick
    simp only [h1, h2]
    simp [Page.hasClass_classAdd, panel, accessibilityPanel]
  · intro h
    have hp : documentClick p target = p := by
      unfold documentClick
      rcases h with h | h <;> simp [h]
    exact ⟨hp, by rw [hp]⟩

/-- Witness of C4 on `samplePage`, whose panel is open: a click on `node 3`
(outside) hides the panel, a click on `node 1` (inside the panel) and a
click on the toggle button itself leave it open. -/
theorem documentClick_outside_hides_witness :
    (documentClick samplePage (Elem.node 3)).hasClass panel "hidden" = true ∧
      (documentClick samplePage (Elem.node 1)).hasClass panel "hidden" = false ∧
      (documentClick samplePage panelToggle).hasClass panel "hidden" = false :=
  ⟨(documentClick_outside_hides samplePage (Elem.node 3)).1 (by decide) (by decide),
    ((documentClick_outside_hides samplePage (Elem.node 1)).2 (Or.inl (by decide))).2.trans
      (by decide),
    ((documentClick_outside_hides samplePage panelToggle).2 (Or.inr (by decide))).2.trans
      (by decide)⟩

/-- C5: one click whose target is the toggle button or lies inside it, seen
by the toggle-button handler and by the document-level handler, flips the
panel's `hidden` membership; both orders of the two handlers give the same
page; a panel the click opened is still open afterwards. -/
theorem toggle_click_flips_panel (p : Page) (target : Elem)
    (h : p.contains togglePanel target = true) :
    documentClick (panelToggleClick p) target = panelToggleClick (documentClick p target) ∧
      (documentClick (panelToggleClick p) target).hasClass panel "hidden" =
        (!p.hasClass panel "hidden") ∧
      (panelToggleClick (documentClick p target)).hasClass panel "hidden" =
        (!p.hasClass panel "hidden") ∧
      (p.hasClass panel "hidden" = true →
        (documentClick (panelToggleClick p) target).hasClass panel "hidden" = false) := by
  have h1 : documentClick p target = p := by
    unfold documentClick; simp [h]
  have h2 : documentClick (panelToggleClick p) target = panelToggleClick p := by
    have hc : (panelToggleClick p).contains togglePanel target = true := h
    unfold documentClick; simp [hc]
  have h3 : (panelToggleClick p).hasClass panel "hidden" = !p.hasClass panel "hidden" := by
    simp [panelToggleClick, Page.hasClass_classToggle]
  refine ⟨by rw [h1, h2], by rw [h2, h3], by rw [h1, h3], ?_⟩
  intro hh
  rw [h2, h3, hh]; rfl

/-- Witness of C5 on `samplePage` with `hidden` added (a closed panel) and a
click on `node 2`, an element inside the toggle button: the panel ends up
open in both orders. -/
theorem toggle_click_flips_panel_witness :
    (closePanelClick samplePage).contains togglePanel (Elem.node 2) = true ∧
      (closePanelClick samplePage).hasClass panel "hidden" = true ∧
      (documentClick (panelToggleClick (closePanelClick samplePage)) (Elem.node 2)).hasClass
        panel "hidden" = false ∧
      (panelToggleClick (documentClick (closePanelClick samplePage) (Elem.node 2))).hasClass
        panel "hidden" = false :=
  ⟨by decide, by decide,
    (toggle_click_flips_panel (closePanelClick samplePage) (Elem.node 2) (by decide)).2.2.2
      (by decide),
    (toggle_click_flips_panel (closePanelClick samplePage) (Elem.node 2) (by decide)).2.2.1.trans
      (by decide)⟩

/-! ## Switches -/

theorem preferenceClick_root (pref : Preference) (p : Page) :
    (preferenceClick pref p).hasClass root pref.className =
      !p.hasClass root pref.className := by
  cases pref <;>
    simp [preferenceClick, setupToggle, Page.hasClass_classToggleForce,
      Page.hasClass_classToggle, Preference.buttonId, Preference.className, root]

theorem preferenceClick_indicator (pref : Preference) (p : Page) :
    indicator (preferenceClick pref p) pref.buttonId =
      shown (!p.hasClass root pref.className) := by
  cases pref <;>
    simp [indicator, shown, preferenceClick, setupToggle, Page.hasClass_classToggleForce,
      Page.classToggle_snd, Preference.buttonId, Preference.className, root]

/-- C6 as stated fails: on the sample page (root without `dyslexic-font`, the
switch carrying none of its indicator classes) two clicks on the dyslexic-font
switch leave `bg-gray-300` on the button and `translate-x-1` on the thumb,
which were not there before. -/
theorem toggle_twice_counterexample :
    indicator samplePage "toggleDyslexic" = (false, false, false, false) ∧
      indicator (preferenceClick Preference.dyslexicFont
        (preferenceClick Preference.dyslexicFont samplePage)) "toggleDyslexic" =
        (false, true, false, true) := by
  decide

/-- C6 (amended): two clicks in a row on the switch of a preference return
the root's membership of the preference class to what it was and leave the
indicator showing that membership; the indicator classes are back to what
they were exactly when they showed the root's membership before the clicks. -/
theorem toggle_twice_restores (pref : Preference) (p : Page) :
    (preferenceClick pref (preferenceClick pref p)).hasClass root pref.className =
        p.hasClass root pref.className ∧
      indicator (preferenceClick pref (preferenceClick pref p)) pref.buttonId =
        shown (p.hasClass root pref.className) ∧
      (indicator (preferenceClick pref (preferenceClick pref p)) pref.buttonId =
          indicator p pref.buttonId ↔
        indicator p pref.buttonId = shown (p.hasClass root pref.className)) := by
  have hr : (preferenceClick pref (preferenceClick pref p)).hasClass root pref.className =
      p.hasClass root pref.className := by
    rw [preferenceClick_root, preferenceClick_root, Bool.not_not]
  have hi : indicator (preferenceClick pref (preferenceClick pref p)) pref.buttonId =
      shown (p.hasClass root pref.className) := by
    rw [preferenceClick_indicator, preferenceClick_root, Bool.not_not]
  refine ⟨hr, hi, ?_⟩
  rw [hi]
  exact eq_comm

theorem rulerToggleClick_rulerActive (p : Page) :
    (rulerToggleClick p).rulerActive = !p.rulerActive := rfl

theorem rulerToggleClick_indicator (p : Page) :
    indicator (rulerToggleClick p) "toggleRuler" = shown (!p.rulerActive) := by
  simp [indicator, shown, rulerToggleClick, Page.hasClass_classToggleForce, rulerToggle,
    rulerThumb, ruler]
  simp [Page.classToggleForce, Page.setClassList]

theorem rulerToggleClick_hidden (p : Page) :
    (rulerToggleClick p).hasClass ruler "hidden" = p.rulerActive := by
  simp [rulerToggleClick, Page.hasClass_classToggleForce, rulerToggle, rulerThumb, ruler]

/-- C7: after one click on a switch its two cues show the new value `b` of
the preference.  For the three class-based preferences `b` is the root's
membership of the preference class after the click (the negation of the
membership before); for the ruler `b` is `rulerActive` after the click (the
negation of `rulerActive` before) and the overlay has `hidden` iff not `b`.
`indicator q id = shown b` spells: button has `bg-blue-600` iff `b` and
`bg-gray-300` iff not `b`, thumb has `translate-x-6` iff `b` and
`translate-x-1` iff not `b`. -/
theorem indicator_follows_value (pref : Preference) (p : Page) :
    ((preferenceClick pref p).hasClass root pref.className =
          (!p.hasClass root pref.className) ∧
        indicator (preferenceClick pref p) pref.buttonId =
          shown ((preferenceClick pref p).hasClass root pref.className)) ∧
      ((rulerToggleClick p).rulerActive = (!p.rulerActive) ∧
        indicator (rulerToggleClick p) "toggleRuler" = shown (rulerToggleClick p).rulerActive ∧
        (rulerToggleClick p).hasClass ruler "hidden" = (!(rulerToggleClick p).rulerActive)) := by
  refine ⟨⟨preferenceClick_root pref p, ?_⟩, rfl, ?_, ?_⟩
  · rw [preferenceClick_indicator, preferenceClick_root]
  · rw [rulerToggleClick_indicator, rulerToggleClick_rulerActive]
  · rw [rulerToggleClick_hidden, rulerToggleClick_rulerActive, Bool.not_not]

/-! ## Reading ruler -/

theorem documentMouseMove_inactive (p : Page) (clientY : ℚ) (h : p.rulerActive = false) :
    documentMouseMove p clientY = p := by
  simp [documentMouseMove, h]

theorem runMouseMoves_inactive (p : Page) (ys : List ℚ) (h : p.rulerActive = false) :
    runMouseMoves p ys = p := by
  induction ys with
  | nil => rfl
  | cons y rest ih =>
    show runMouseMoves (documentMouseMove p y) rest = p
    rw [documentMouseMove_inactive p y h]
    exact ih

/-- C8: with `rulerActive` true a pointer move sets the overlay's inline `top`
to `clientY - h / 2` px, `h` the overlay's `offsetHeight`, and changes nothing
else (the `top` of every other element and every other field of the page are
as before); with `rulerActive` false a pointer move, and any sequence of
pointer moves, leaves the page as it was. -/
theorem mouseMove_tracks_when_active (p : Page) (clientY : ℚ) :
    (p.rulerActive = true →
        (documentMouseMove p clientY).styleTop ruler =
            some (clientY - p.offsetHeight ruler / 2) ∧
          (∀ x, x ≠ ruler → (documentMouseMove p clientY).styleTop x = p.styleTop x) ∧
          { documentMouseMove p clientY with styleTop := p.styleTop } = p) ∧
      (p.rulerActive = false →
        documentMouseMove p clientY = p ∧ ∀ ys : List ℚ, runMouseMoves p ys = p) := by
  constructor
  · intro h
    refine ⟨by simp [documentMouseMove, h], ?_, ?_⟩
    rotate_left
    · unfold documentMouseMove
      rw [if_pos h]
    intro x hx
    simp [documentMouseMove, h, hx]
  · intro h
    exact ⟨documentMouseMove_inactive p clientY h, fun ys => runMouseMoves_inactive p ys h⟩

/-- Witness of C8: on `rulerPage` a move to `clientY = 10` puts the overlay
at 7.5 px; on the sample page (ruler off) moves to 10, 20 and 30 leave the
overlay without an inline `top` and still `hidden`. -/
theorem mouseMove_tracks_when_active_witness :
    rulerPage.rulerActive = true ∧
      (documentMouseMove rulerPage 10).styleTop ruler = some (15 / 2) ∧
      samplePage.rulerActive = false ∧
      (runMouseMoves samplePage [10, 20, 30]).styleTop ruler = none ∧
      (runMouseMoves samplePage [10, 20, 30]).hasClass ruler "hidden" = true := by
  have h1 := ((mouseMove_tracks_when_active rulerPage 10).1 rfl).1
  have h2 := ((mouseMove_tracks_when_active samplePage 10).2 rfl).2 [10, 20, 30]
  refine ⟨rfl, ?_, rfl, ?_, ?_⟩
  · rw [h1]; simp [rulerPage]; norm_num
  · rw [h2]; rfl
  · rw [h2]; rfl

/-! ## Contact form -/

theorem success_ne_failure (name : String) :
    "Thank you for your message, " ++ name ++
      "! Our research team will get back to you soon." ≠ "Please fill in all fields." := by
  intro h
  have h2 := congrArg (fun s => s.data.head?) h
  simp [String.data_append] at h2

theorem contactFormSubmit_filled (p : Page) (h : allFilled p) :
    newEffects p (contactFormSubmit p) =
      [Effect.preventDefault,
        Effect.alert ("Thank you for your message, " ++ p.value (Elem.byId "name") ++
          "! Our research team will get back to you soon."),
        Effect.reset (Elem.byId "contactForm")] := by
  obtain ⟨h1, h2, h3, h4⟩ := h
  simp [newEffects, contactFormSubmit, Page.emit, truthy, h1, h2, h3, h4]

theorem contactFormSubmit_missing (p : Page) (h : ¬ allFilled p) :
    newEffects p (contactFormSubmit p) =
      [Effect.preventDefault, Effect.alert "Please fill in all fields."] := by
  have hc : (truthy (p.value (Elem.byId "name")) && truthy (p.value (Elem.byId "email")) &&
      truthy (p.value (Elem.byId "subject")) && truthy (p.value (Elem.byId "message"))) = false := by
    by_contra hne
    apply h
    simpa [truthy, allFilled, and_assoc] using hne
  unfold contactFormSubmit
  simp only [Page.emit, hc]
  simp [newEffects]

/-- C9: the submit handler of the contact form shows the success notification
(whose text contains the submitted name) and resets the form if and only if
all four values are non-empty; otherwise it shows `Please fill in all
fields.` and does not reset the form.  In both cases the default submission
is prevented first and nothing else is called. -/
theorem contactForm_validates (p : Page) :
    (allFilled p →
        newEffects p (contactFormSubmit p) =
          [Effect.preventDefault,
            Effect.alert ("Thank you for your message, " ++ p.value (Elem.byId "name") ++
              "! Our research team will get back to you soon."),
            Effect.reset (Elem.byId "contactForm")]) ∧
      (¬ allFilled p →
        newEffects p (contactFormSubmit p) =
          [Effect.preventDefault, Effect.alert "Please fill in all fields."]) ∧
      (Effect.alert ("Thank you for your message, " ++ p.value (Elem.byId "name") ++
          "! Our research team will get back to you soon.") ∈
            newEffects p (contactFormSubmit p) ↔ allFilled p) ∧
      (Effect.reset (Elem.byId "contactForm") ∈ newEffects p (contactFormSubmit p) ↔
        allFilled p) ∧
      (∃ before after : String,
        "Thank you for your message, " ++ p.value (Elem.byId "name") ++
          "! Our research team will get back to you soon." =
            before ++ p.value (Elem.byId "name") ++ after) := by
  refine ⟨contactFormSubmit_filled p, contactFormSubmit_missing p, ?_, ?_, ⟨_, _, rfl⟩⟩
  · by_cases h : allFilled p
    · simp [contactFormSubmit_filled p h, h]
    · simp [contactFormSubmit_missing p h, h, success_ne_failure]
  · by_cases h : allFilled p
    · simp [contactFormSubmit_filled p h, h]
    · simp [contactFormSubmit_missing p h, h]

/-- Witness of C9 on `adaPage`: the empty email makes the handler show the
validation failure and not reset the form. -/
theorem contactForm_validates_witness :
    ¬ allFilled adaPage ∧
      newEffects adaPage (contactFormSubmit adaPage) =
        [Effect.preventDefault, Effect.alert "Please fill in all fields."] ∧
      Effect.reset (Elem.byId "contactForm") ∉ newEffects adaPage (contactFormSubmit adaPage) :=
  ⟨by decide, (contactForm_validates adaPage).2.1 (by decide),
    fun h => absurd ((contactForm_validates adaPage).2.2.2.1.mp h) (by decide)⟩

/-! ## FAQ accordion -/

theorem foldl_classRemove_hasClass (items : List Elem) (p : Page) (x : Elem) (u : String) :
    (items.foldl (fun q item => q.classRemove item "active") p).hasClass x u =
      if x ∈ items ∧ u = "active" then false else p.hasClass x u := by
  induction items generalizing p with
  | nil => simp
  | cons i rest ih =>
    rw [List.foldl_cons, ih, Page.hasClass_classRemove]
    by_cases hx : x = i <;> by_cases hr : x ∈ rest <;> by_cases hu : u = "active" <;>
      simp [hx, hr, hu]

theorem foldl_classRemove_elements (items : List Elem) (p : Page) :
    (items.foldl (fun q item => q.classRemove item "active") p).elements = p.elements := by
  induction items generalizing p with
  | nil => rfl
  | cons i rest ih => rw [List.foldl_cons, ih]; rfl

theorem querySelectorAllClass_congr (p q : Page) (cls : String)
    (he : q.elements = p.elements) (hc : ∀ x, q.hasClass x cls = p.hasClass x cls) :
    q.querySelectorAllClass cls = p.querySelectorAllClass cls := by
  unfold Page.querySelectorAllClass
  rw [he]
  congr 1
  funext x
  exact hc x

/-- C10: a click on a FAQ toggle whose parent `item` is one of the
`.faq-item` elements completes and leaves `item` active iff it was not active
before, every other `.faq-item` inactive and the set of `.faq-item` elements as
it was; so afterwards at most one `.faq-item` is active, and a click on
the open item leaves none active. -/
theorem faq_click_single_open (p : Page) (toggle item : Elem)
    (hparent : p.parentElement toggle = some item)
    (hitem : item ∈ p.querySelectorAllClass "faq-item") :
    ∃ q, faqToggleClick p toggle = some q ∧
      q.hasClass item "active" = (!p.hasClass item "active") ∧
      (∀ e ∈ p.querySelectorAllClass "faq-item", e ≠ item → q.hasClass e "active" = false) ∧
      q.querySelectorAllClass "faq-item" = p.querySelectorAllClass "faq-item" ∧
      (∀ e1 ∈ q.querySelectorAllClass "faq-item", ∀ e2 ∈ q.querySelectorAllClass "faq-item",
        q.hasClass e1 "active" = true → q.hasClass e2 "active" = true → e1 = e2) ∧
      (p.hasClass item "active" = true →
        ∀ e ∈ q.querySelectorAllClass "faq-item", q.hasClass e "active" = false) := by
  have key : ∀ q, faqToggleClick p toggle = some q →
      (∀ x u, q.hasClass x u =
        if x = item ∧ u = "active" then !p.hasClass item "active"
        else if x ∈ p.querySelectorAllClass "faq-item" ∧ u = "active" then false
        else p.hasClass x u) ∧ q.elements = p.elements := by
    intro q hq
    unfold faqToggleClick at hq
    rw [hparent] at hq
    by_cases ha : p.hasClass item "active" = true
    · simp only [ha, Bool.not_true, Bool.false_eq_true, if_false, Option.some.injEq] at hq
      subst hq
      refine ⟨?_, foldl_classRemove_elements _ p⟩
      intro x u
      rw [foldl_classRemove_hasClass]
      by_cases hx : x = item <;> by_cases hu : u = "active" <;> simp [hx, hu, hitem, ha]
    · simp only [ha, Bool.not_false, if_true, Option.some.injEq] at hq
      subst hq
      refine ⟨?_, foldl_classRemove_elements _ p⟩
      intro x u
      rw [Page.hasClass_classAdd, foldl_classRemove_hasClass]
      by_cases hx : x = item <;> by_cases hu : u = "active" <;> simp [hx, hu, ha]
  have hex : ∃ q, faqToggleClick p toggle = some q := by
    unfold faqToggleClick
    rw [hparent]
    by_cases ha : p.hasClass item "active" = true <;> simp [ha]
  obtain ⟨q, hq⟩ := hex
  obtain ⟨hc, he⟩ := key q hq
  have hsame : q.querySelectorAllClass "faq-item" = p.querySelectorAllClass "faq-item" :=
    querySelectorAllClass_congr p q "faq-item" he (fun x => by rw [hc]; simp)
  have hothers : ∀ e ∈ p.querySelectorAllClass "faq-item", e ≠ item →
      q.hasClass e "active" = false := by
    intro e hmem hne
    rw [hc]; simp [hne, hmem]
  refine ⟨q, hq, by rw [hc]; simp, hothers, hsame, ?_, ?_⟩
  · rw [hsame]
    intro e1 h1 e2 h2 a1 a2
    by_cases c1 : e1 = item
    · by_cases c2 : e2 = item
      · rw [c1, c2]
      · rw [hothers e2 h2 c2] at a2; exact absurd a2 (by decide)
    · rw [hothers e1 h1 c1] at a1; exact absurd a1 (by decide)
  · rw [hsame]
    intro ha e hmem
    by_cases c : e = item
    · rw [c, hc]; simp [ha]
    · exact hothers e hmem c

/-- Witness of C10 on `samplePage`: a click on the toggle of the first item
(closed) opens it and closes the second; a click on the toggle of the open
second item leaves no item open. -/
theorem faq_click_single_open_witness :
    (samplePage.parentElement (Elem.node 20) = some (Elem.node 10) ∧
      Elem.node 10 ∈ samplePage.querySelectorAllClass "faq-item") ∧
    (∃ q, faqToggleClick samplePage (Elem.node 20) = some q ∧
      q.hasClass (Elem.node 10) "active" = true ∧
      q.hasClass (Elem.node 11) "active" = false) ∧
    (∃ q, faqToggleClick samplePage (Elem.node 21) = some q ∧
      ∀ e ∈ q.querySelectorAllClass "faq-item", q.hasClass e "active" = false) := by
  refine ⟨⟨by decide, by decide⟩, ?_, ?_⟩
  · obtain ⟨q, hq, h1, h2, _⟩ :=
      faq_click_single_open samplePage (Elem.node 20) (Elem.node 10) (by decide) (by decide)
    exact ⟨q, hq, h1.trans (by decide), h2 (Elem.node 11) (by decide) (by decide)⟩
  · obtain ⟨q, hq, _, _, _, _, h5⟩ :=
      faq_click_single_open samplePage (Elem.node 21) (Elem.node 11) (by decide) (by decide)
    exact ⟨q, hq, h5 (by decide)⟩

end Dyslexia
